import Mathlib

/-!
Shallow embedding of the discord-mcp server (src/index.js): config store,
guild resolution, entity resolvers, per-tool handlers and the batch
(Promise.allSettled) dispatch pattern, together with proofs of the spec
claims about them.

Remote platform effects (discord.js calls) are modelled as oracle
functions passed in as parameters: a per-item oracle returns `Except
String β`, standing for the settled outcome (fulfilled value or rejection
message) of the corresponding remote call.
-/

namespace DiscordMcp

/-- JS truthiness of an optional string value (`undefined`/`null` and the
empty string are falsy, every other string truthy), as used by
`if (args.guild_id)` and `config.default_guild_id || null` in index.js. -/
def jsTruthyStr : Option String → Bool
  | none => false
  | some s => !s.isEmpty

/-- JS `v || d` for an optional string `v` (index.js uses it for
`args.reason || "No reason provided"` and the like). -/
def jsOrStr (v : Option String) (d : String) : String :=
  match v with
  | some s => if s.isEmpty then d else s
  | none => d

/-- JS `v || d` for an optional number `v` (`args.limit || 20` in the
`get_messages` handler); `0` is falsy in JS. -/
def jsOrInt (v : Option Int) (d : Int) : Int :=
  match v with
  | some x => if x == 0 then d else x
  | none => d

/-- The parsed content of `.discord-mcp-config.json`: the
`default_guild_id` field plus any other (unknown) fields the JSON object
may carry, kept abstractly as key/value pairs. -/
structure Config where
  default_guild_id : Option String
  extra : List (String × String)
deriving Repr, DecidableEq

/-- `{}`: the empty config object returned by `loadConfig` on failure. -/
def emptyConfig : Config := ⟨none, []⟩

/-- The state of the config file on disk: absent, present but not valid
JSON, or present with parsed content `c`. -/
inductive FileState where
  | missing
  | malformed
  | wellFormed (c : Config)
deriving Repr, DecidableEq

/-- index.js `loadConfig`: if the file exists, try to parse it, returning
`{}` when `JSON.parse` throws; if it does not exist, return `{}`. -/
def loadConfig : FileState → Config
  | .missing => emptyConfig
  | .malformed => emptyConfig
  | .wellFormed c => c

/-- index.js `saveConfig`: `writeFileSync(CONFIG_PATH, JSON.stringify(config))`
— the previous file state is fully overwritten by the given config. -/
def saveConfig (config : Config) (_fs : FileState) : FileState :=
  .wellFormed config

/-- A guild as seen through `discord.guilds.cache`. -/
structure Guild where
  id : String
  name : String
  memberCount : Nat
deriving Repr, DecidableEq

/-- index.js `getGuild`: `discord.guilds.cache.get(guildId)`, throwing when
the guild is not in the cache. -/
def getGuild (cache : List Guild) (guildId : String) : Except String Guild :=
  match cache.find? (fun g => g.id == guildId) with
  | some g => .ok g
  | none => .error ("Guild " ++ guildId ++ " not found or bot is not in this server")

/-- index.js `resolveGuildId` fallback: read the persisted default
(`config.default_guild_id`, JS-truthy test) or throw. -/
def resolveGuildDefault (fs : FileState) : Except String String :=
  match (loadConfig fs).default_guild_id with
  | some d =>
      if !d.isEmpty then .ok d
      else .error "No guild_id provided and no default guild set. Use set_guild first."
  | none => .error "No guild_id provided and no default guild set. Use set_guild first."

/-- index.js `resolveGuildId`: `args.guild_id` when truthy, else the
persisted default, else an error. -/
def resolveGuildId (fs : FileState) (argsGuildId : Option String) : Except String String :=
  match argsGuildId with
  | some g => if !g.isEmpty then .ok g else resolveGuildDefault fs
  | none => resolveGuildDefault fs

/-- Result object of the `set_guild` tool. -/
structure SetGuildResult where
  success : Bool
  default_guild_id : String
  guild_name : String
deriving Repr, DecidableEq

/-- index.js `handleTool` case `"set_guild"`: look the guild up in the
cache (throws before any file access when absent), then load the config,
overwrite its `default_guild_id` field and save the mutated object.
Returns the possibly-updated file state with the result or the error. -/
def set_guild (cache : List Guild) (guild_id : String) (fs : FileState) :
    FileState × Except String SetGuildResult :=
  match getGuild cache guild_id with
  | .error e => (fs, .error e)
  | .ok g =>
      let config := loadConfig fs
      let config2 : Config := { config with default_guild_id := some guild_id }
      (saveConfig config2 fs, .ok ⟨true, guild_id, g.name⟩)

/-- Result object of the `get_guild` tool (fields absent from a branch of
the JS object literal are `none`). -/
structure GetGuildResult where
  default_guild_id : Option String
  guild_name : Option String
  member_count : Option Nat
  message : Option String
deriving Repr, DecidableEq

/-- index.js `handleTool` case `"get_guild"`: read-only — loads the config
and never calls `saveConfig`, so the file state is returned unchanged.
`if (!config.default_guild_id)` is the JS-truthy test. -/
def get_guild (cache : List Guild) (fs : FileState) : FileState × GetGuildResult :=
  let config := loadConfig fs
  (fs,
    match config.default_guild_id with
    | none => ⟨none, none, none, some "No default guild set. Use set_guild."⟩
    | some gid =>
        if gid.isEmpty then
          ⟨none, none, none, some "No default guild set. Use set_guild."⟩
        else
          match getGuild cache gid with
          | .ok g => ⟨some gid, some g.name, some g.memberCount, none⟩
          | .error _ =>
              ⟨some gid, none, none, some "Saved but bot may no longer be in this server"⟩)

/-- One entry of the `list_guilds` result. -/
structure ListGuildsEntry where
  id : String
  name : String
  member_count : Nat
  is_default : Bool
deriving Repr, DecidableEq

/-- Result object of the `list_guilds` tool. -/
structure ListGuildsResult where
  guilds : List ListGuildsEntry
  default_guild_id : Option String
deriving Repr, DecidableEq

/-- index.js `handleTool` case `"list_guilds"`: read-only map over the
guild cache; `is_default` is JS `===` against `config.default_guild_id`
(false when that field is absent), and the returned `default_guild_id` is
`config.default_guild_id || null`. -/
def list_guilds (cache : List Guild) (fs : FileState) : FileState × ListGuildsResult :=
  let config := loadConfig fs
  (fs,
    { guilds := cache.map (fun g =>
        ⟨g.id, g.name, g.memberCount,
          match config.default_guild_id with
          | some d => g.id == d
          | none => false⟩),
      default_guild_id :=
        if jsTruthyStr config.default_guild_id then config.default_guild_id else none })

/-- The shared prefix of every guild-scoped tool (index.js lines 428–429):
`resolveGuildId` then `getGuild`, before the handler body runs. The body
is abstracted as an oracle returning the list of remote platform calls it
performs (as opaque labels) together with its result; the dispatcher
returns an empty remote-call trace whenever the prefix throws. -/
def dispatchGuildScoped {α : Type} (fs : FileState) (cache : List Guild)
    (argsGuildId : Option String) (body : Guild → List String × Except String α) :
    List String × Except String α :=
  match resolveGuildId fs argsGuildId with
  | .error e => ([], .error e)
  | .ok gid =>
      match getGuild cache gid with
      | .error e => ([], .error e)
      | .ok g => body g

/-- A platform user (`member.user` in discord.js). -/
structure User where
  username : String
  globalName : Option String
deriving Repr, DecidableEq

/-- A guild member as seen through `guild.members.cache`. -/
structure Member where
  id : String
  user : User
  displayName : String
deriving Repr, DecidableEq

/-- A role as seen through `guild.roles.cache`. -/
structure Role where
  id : String
  name : String
deriving Repr, DecidableEq

/-- `String.prototype.toLowerCase()` as used by the resolvers, written
structurally over the character list so the kernel can evaluate it on
concrete strings. -/
def strToLower (s : String) : String :=
  ⟨s.data.map Char.toLower⟩

/-- The regex `/^\d{17,20}$/` of index.js: the whole token is 17 to 20
decimal digits (JS `$` without the `m` flag anchors at end of input);
written over the character list so the kernel can evaluate it. -/
def isSnowflake (s : String) : Bool :=
  decide (17 ≤ s.data.length) && decide (s.data.length ≤ 20) && s.data.all Char.isDigit

/-- The predicate of the `guild.members.cache.find` callback in
`resolveMember`: case-insensitive match of the token against account
username, server display name, and (when JS-truthy) global display name. -/
def memberNameMatches (tok : String) (m : Member) : Bool :=
  strToLower m.user.username == strToLower tok
  || strToLower m.displayName == strToLower tok
  || (match m.user.globalName with
      | some g => !g.isEmpty && strToLower g == strToLower tok
      | none => false)

/-- index.js `resolveMember`: a snowflake-shaped token goes to the direct
remote fetch (`guild.members.fetch(id)`, modelled by the `fetchById`
oracle); any other token is matched case-insensitively against the full
materialized roster (`guild.members.cache` after `members.fetch()`), first
match winning, with a not-found error on zero matches. -/
def resolveMember (fetchById : String → Except String Member) (roster : List Member)
    (userIdOrName : String) : Except String Member :=
  if isSnowflake userIdOrName then
    fetchById userIdOrName
  else
    match roster.find? (memberNameMatches userIdOrName) with
    | some m => .ok m
    | none => .error ("User \"" ++ userIdOrName ++ "\" not found in this server")

/-- The predicate of the `guild.roles.cache.find` callback in
`resolveRole`: case-insensitive name equality. -/
def roleNameMatches (tok : String) (r : Role) : Bool :=
  strToLower r.name == strToLower tok

/-- index.js `resolveRole`: a snowflake-shaped token is looked up directly
in the role cache by id; any other token is matched case-insensitively
against role names, first match winning. -/
def resolveRole (rolesCache : List Role) (roleIdOrName : String) : Except String Role :=
  if isSnowflake roleIdOrName then
    match rolesCache.find? (fun r => r.id == roleIdOrName) with
    | some r => .ok r
    | none => .error ("Role " ++ roleIdOrName ++ " not found")
  else
    match rolesCache.find? (roleNameMatches roleIdOrName) with
    | some r => .ok r
    | none => .error ("Role \"" ++ roleIdOrName ++ "\" not found")

/-- The platform timeout call issued by `time_out_user`
(`member.timeout(ms, reason)`). -/
structure TimeoutCall where
  memberId : String
  ms : Nat
  reason : String
deriving Repr, DecidableEq

/-- Result object of the `time_out_user` tool; `untilTs` is the `until`
field (`new Date(Date.now() + ms)`), in milliseconds since epoch. -/
structure TimeOutResult where
  timed_out : String
  username : String
  duration_minutes : Nat
  untilTs : Nat
  reason : String
deriving Repr, DecidableEq

/-- index.js `handleTool` case `"time_out_user"`: resolve the member
(oracle `resolveM`), compute `ms = duration_minutes * 60 * 1000`, issue
`member.timeout(ms, reason)` and return the shaped result with
`until = Date.now() + ms` (`now` is `Date.now()` at result time). -/
def time_out_user (resolveM : String → Except String Member) (now : Nat)
    (user_id : String) (duration_minutes : Nat) (reason : Option String) :
    Except String (TimeoutCall × TimeOutResult) :=
  match resolveM user_id with
  | .error e => .error e
  | .ok m =>
      let ms := duration_minutes * 60 * 1000
      let rsn := jsOrStr reason "No reason provided"
      .ok (⟨m.id, ms, rsn⟩, ⟨m.id, m.user.username, duration_minutes, now + ms, rsn⟩)

/-- The options object passed to `channel.messages.fetch` by the
`get_messages` handler. -/
structure FetchOptions where
  limit : Int
  before : Option String
deriving Repr, DecidableEq

/-- index.js `handleTool` case `"get_messages"`, fetch-request part:
`limit = Math.min(args.limit || 20, 100)`, and `before` is set only when
`args.before_message_id` is JS-truthy. -/
def get_messages_fetchOptions (limit : Option Int) (before_message_id : Option String) :
    FetchOptions :=
  { limit := min (jsOrInt limit 20) 100,
    before :=
      match before_message_id with
      | some b => if b.isEmpty then none else some b
      | none => none }

/-- `Promise.allSettled(xs.map(op))`: the list of settled per-item
outcomes, in input order; item `i` settles to `op xs[i]` independently of
its siblings. -/
def allSettled {α β : Type} (op : α → Except String β) (xs : List α) :
    List (Except String β) :=
  xs.map op

/-- One item of the `mass_channels` input array. -/
structure MassChannelInput where
  name : String
  category_id : Option String
  topic : Option String
deriving Repr, DecidableEq

/-- One item of the `mass_voice_channels` input array. -/
structure MassVoiceInput where
  name : String
  category_id : Option String
  user_limit : Option Nat
deriving Repr, DecidableEq

/-- One item of the `mass_create_role` input array. -/
structure MassRoleInput where
  name : String
  color : Option String
  hoist : Option Bool
  mentionable : Option Bool
deriving Repr, DecidableEq

/-- One item of the `mass_send_message` input array. -/
structure MassMessageInput where
  channel_id : String
  content : String
deriving Repr, DecidableEq

/-- Outcome shape of the name-keyed creation batch tools (`mass_channels`,
`mass_categories`, `mass_voice_channels`, `mass_create_role`). -/
structure NameOutcome where
  name : String
  id : Option String
  status : String
  error : Option String
deriving Repr, DecidableEq

/-- Outcome shape of the id-keyed deletion batch tools (`mass_delete`,
`mass_delete_role`). -/
structure IdNameOutcome where
  id : String
  name : Option String
  status : String
  error : Option String
deriving Repr, DecidableEq

/-- Outcome shape of `mass_send_message`. -/
structure SendOutcome where
  channel_id : String
  message_id : Option String
  status : String
  error : Option String
deriving Repr, DecidableEq

/-- Outcome shape of `mass_delete_message`. -/
structure MsgOutcome where
  message_id : String
  status : String
  error : Option String
deriving Repr, DecidableEq

/-- Outcome shape of `mass_ban`. -/
structure BanOutcome where
  user_id : String
  status : String
  error : Option String
deriving Repr, DecidableEq

/-- Outcome shape of `mass_time_out` (`untilTs` is the `until` field). -/
structure TimeOutOutcome where
  user_id : String
  username : Option String
  status : String
  untilTs : Option Nat
  error : Option String
deriving Repr, DecidableEq

/-- index.js case `"mass_channels"`: `Promise.allSettled` over per-item
`guild.channels.create` (oracle `create`, fulfilled value's `id`), then a
positional map pairing result `i` with `args.channels[i]`. -/
def mass_channels (create : MassChannelInput → Except String String)
    (channels : List MassChannelInput) : List NameOutcome :=
  List.zipWith
    (fun r ch =>
      match r with
      | .ok chId => ⟨ch.name, some chId, "created", none⟩
      | .error e => ⟨ch.name, none, "failed", some e⟩)
    (allSettled create channels) channels

/-- index.js case `"mass_categories"`: same pattern keyed by the raw name
list. -/
def mass_categories (create : String → Except String String)
    (names : List String) : List NameOutcome :=
  List.zipWith
    (fun r n =>
      match r with
      | .ok catId => ⟨n, some catId, "created", none⟩
      | .error e => ⟨n, none, "failed", some e⟩)
    (allSettled create names) names

/-- index.js case `"mass_voice_channels"`. -/
def mass_voice_channels (create : MassVoiceInput → Except String String)
    (channels : List MassVoiceInput) : List NameOutcome :=
  List.zipWith
    (fun r ch =>
      match r with
      | .ok vcId => ⟨ch.name, some vcId, "created", none⟩
      | .error e => ⟨ch.name, none, "failed", some e⟩)
    (allSettled create channels) channels

/-- index.js case `"mass_delete"`: the per-item async function (cache
lookup, throw when absent, delete, return the name) is the oracle
`deleteCh`. -/
def mass_delete (deleteCh : String → Except String String)
    (channel_ids : List String) : List IdNameOutcome :=
  List.zipWith
    (fun r chId =>
      match r with
      | .ok n => ⟨chId, some n, "deleted", none⟩
      | .error e => ⟨chId, none, "failed", some e⟩)
    (allSettled deleteCh channel_ids) channel_ids

/-- index.js case `"mass_send_message"`: per-item resolve channel and send
(oracle returns the new message id). -/
def mass_send_message (send : MassMessageInput → Except String String)
    (messages : List MassMessageInput) : List SendOutcome :=
  List.zipWith
    (fun r m =>
      match r with
      | .ok msgId => ⟨m.channel_id, some msgId, "sent", none⟩
      | .error e => ⟨m.channel_id, none, "failed", some e⟩)
    (allSettled send messages) messages

/-- index.js case `"mass_delete_message"`: per-item fetch-and-delete
(oracle returns the deleted id; the outcome echoes `args.message_ids[i]`). -/
def mass_delete_message (deleteMsg : String → Except String String)
    (message_ids : List String) : List MsgOutcome :=
  List.zipWith
    (fun r msgId =>
      match r with
      | .ok _ => ⟨msgId, "deleted", none⟩
      | .error e => ⟨msgId, "failed", some e⟩)
    (allSettled deleteMsg message_ids) message_ids

/-- index.js case `"mass_create_role"`. -/
def mass_create_role (create : MassRoleInput → Except String String)
    (roles : List MassRoleInput) : List NameOutcome :=
  List.zipWith
    (fun r ri =>
      match r with
      | .ok roleId => ⟨ri.name, some roleId, "created", none⟩
      | .error e => ⟨ri.name, none, "failed", some e⟩)
    (allSettled create roles) roles

/-- index.js case `"mass_delete_role"`. -/
def mass_delete_role (deleteRole : String → Except String String)
    (role_ids : List String) : List IdNameOutcome :=
  List.zipWith
    (fun r roleId =>
      match r with
      | .ok n => ⟨roleId, some n, "deleted", none⟩
      | .error e => ⟨roleId, none, "failed", some e⟩)
    (allSettled deleteRole role_ids) role_ids

/-- index.js case `"mass_ban"`: per-item `guild.members.ban` (fulfilled
value unused). -/
def mass_ban (ban : String → Except String Unit)
    (user_ids : List String) : List BanOutcome :=
  List.zipWith
    (fun r uid =>
      match r with
      | .ok _ => ⟨uid, "banned", none⟩
      | .error e => ⟨uid, "failed", some e⟩)
    (allSettled ban user_ids) user_ids

/-- index.js case `"mass_time_out"`: per-item resolve-then-timeout (oracle
returns the username); `ms = duration_minutes * 60 * 1000` and the success
outcome carries `until = Date.now() + ms`. -/
def mass_time_out (now duration_minutes : Nat) (op : String → Except String String)
    (user_ids : List String) : List TimeOutOutcome :=
  let ms := duration_minutes * 60 * 1000
  List.zipWith
    (fun r uid =>
      match r with
      | .ok uname => ⟨uid, some uname, "timed_out", some (now + ms), none⟩
      | .error e => ⟨uid, none, "failed", none, some e⟩)
    (allSettled op user_ids) user_ids

/-- The behaviour C1 asserts of every batch tool `t` (with input key field
`keyIn`, outcome key field `keyOut`, status and error projections, and the
success/failure outcome shapes): the outcome list has the input's length;
outcome `i` echoes input `i`'s key; the number of `"failed"` outcomes is
exactly the number of items whose settled per-item operation failed; a
succeeding item `i` yields the success shape (non-"failed" status) at
position `i`; a failing item `i` yields the failure shape at position `i`,
with status `"failed"` and the underlying rejection message; and the tool
is append-homomorphic — the outcomes of any sublist are unaffected by the
items (and in particular the failures) around it. -/
def BatchSpec {α β γ : Type}
    (t : (α → Except String β) → List α → List γ)
    (keyIn : α → String) (keyOut : γ → String)
    (statusOf : γ → String) (errOf : γ → Option String)
    (okShape : α → β → γ) (errShape : α → String → γ) : Prop :=
  ∀ (op : α → Except String β) (xs : List α),
    (t op xs).length = xs.length
    ∧ (∀ i : Nat, ((t op xs)[i]?).map keyOut = (xs[i]?).map keyIn)
    ∧ (t op xs).countP (fun o => statusOf o == "failed")
        = xs.countP (fun x => match op x with | .ok _ => false | .error _ => true)
    ∧ (∀ (i : Nat) (x : α) (b : β), xs[i]? = some x → op x = .ok b →
        (t op xs)[i]? = some (okShape x b) ∧ statusOf (okShape x b) ≠ "failed")
    ∧ (∀ (i : Nat) (x : α) (e : String), xs[i]? = some x → op x = .error e →
        (t op xs)[i]? = some (errShape x e) ∧ statusOf (errShape x e) = "failed"
          ∧ errOf (errShape x e) = some e)
    ∧ (∀ ys zs : List α, t op (ys ++ zs) = t op ys ++ t op zs)

/-- A sample guild for concrete evaluations. -/
def guild0 : Guild := ⟨"123456789012345678", "Test Guild", 42⟩

/-- A config file carrying an unknown extra field besides a default id. -/
def fsExtra : FileState :=
  .wellFormed ⟨some "999999999999999999", [("theme", "dark")]⟩

/-- A sample creation oracle that rejects the channel named `"b"`. -/
def create0 : MassChannelInput → Except String String :=
  fun ch => if ch.name == "b" then .error "boom" else .ok ("id-" ++ ch.name)

/-- A sample `mass_channels` input list. -/
def inputs0 : List MassChannelInput :=
  [⟨"a", none, none⟩, ⟨"b", none, none⟩, ⟨"c", none, none⟩]

/-- A sample member. -/
def member0 : Member := ⟨"111111111111111111", ⟨"alice", some "Alice G"⟩, "Ally"⟩

/-- A sample roster. -/
def roster0 : List Member := [member0]

/-- A sample direct-fetch oracle for members. -/
def fetch0 : String → Except String Member :=
  fun uid => if uid == member0.id then .ok member0 else .error "Unknown Member"

/-- A sample role cache. -/
def roles0 : List Role := [⟨"222222222222222222", "Moderator"⟩]

/-- A sample guild-scoped handler body performing one remote call. -/
def body0 : Guild → List String × Except String String :=
  fun g => (["channels.create"], .ok g.id)

/-- Zipping a mapped list with its source is a single map: this is how
`Promise.allSettled(xs.map(op))` followed by the positional
`results.map((r, i) => ...)` pairs outcome `i` with input `i`. -/
theorem zipWith_map_left_self {α β γ : Type} (f : β → α → γ) (g : α → β) :
    ∀ xs : List α, List.zipWith f (xs.map g) xs = xs.map (fun x => f (g x) x) := by
  intro xs
  induction xs with
  | nil => rfl
  | cons x xs ih => simp [ih]

/-- Any tool of the settled-batch shape satisfies `BatchSpec`, provided
its success/failure shapes echo the key, its failure shape has status
`"failed"` with the rejection message, and its success shape does not. -/
theorem batchSpec_of_shape {α β γ : Type}
    (t : (α → Except String β) → List α → List γ)
    (keyIn : α → String) (keyOut : γ → String)
    (statusOf : γ → String) (errOf : γ → Option String)
    (okShape : α → β → γ) (errShape : α → String → γ)
    (f : Except String β → α → γ)
    (ht : ∀ op xs, t op xs = List.zipWith f (xs.map op) xs)
    (hfo : ∀ (x : α) (b : β), f (.ok b) x = okShape x b)
    (hfe : ∀ (x : α) (e : String), f (.error e) x = errShape x e)
    (hko : ∀ x b, keyOut (okShape x b) = keyIn x)
    (hke : ∀ x e, keyOut (errShape x e) = keyIn x)
    (hso : ∀ x b, statusOf (okShape x b) ≠ "failed")
    (hse : ∀ x e, statusOf (errShape x e) = "failed")
    (her : ∀ x e, errOf (errShape x e) = some e) :
    BatchSpec t keyIn keyOut statusOf errOf okShape errShape := by
  intro op xs
  have hmap : ∀ ys : List α, t op ys = ys.map (fun x => f (op x) x) := by
    intro ys
    rw [ht]
    exact zipWith_map_left_self f op ys
  refine ⟨?_, ?_, ?_, ?_, ?_, ?_⟩
  · rw [hmap]; exact List.length_map _ _
  · intro i
    rw [hmap, List.getElem?_map]
    cases h : xs[i]? with
    | none => rfl
    | some x =>
      cases hop : op x with
      | ok b => simp [hop, hfo, hko]
      | error e => simp [hop, hfe, hke]
  · rw [hmap, List.countP_map]
    congr 1
    funext x
    simp only [Function.comp_apply]
    cases hop : op x with
    | ok b =>
      rw [hfo]
      exact beq_eq_false_iff_ne.mpr (hso x b)
    | error e =>
      rw [hfe]
      exact beq_iff_eq.mpr (hse x e)
  · intro i x b hx hop
    refine ⟨?_, hso x b⟩
    rw [hmap, List.getElem?_map, hx]
    simp [hop, hfo]
  · intro i x e hx hop
    refine ⟨?_, hse x e, her x e⟩
    rw [hmap, List.getElem?_map, hx]
    simp [hop, hfe]
  · intro ys zs
    rw [hmap, hmap, hmap, List.map_append]

/-- C1: every batch tool (`mass_channels`, `mass_categories`,
`mass_voice_channels`, `mass_delete`, `mass_send_message`,
`mass_delete_message`, `mass_create_role`, `mass_delete_role`, `mass_ban`,
`mass_time_out`) returns a same-length, same-order outcome list in which
outcome `i` echoes the key field of input `i`, exactly the failing items
yield status `"failed"` carrying the underlying failure message, the
succeeding items carry the success status plus the affected identifier,
and each item's outcome (and effect, modelled by its per-item settled
operation) is independent of its siblings (append-homomorphism). -/
theorem batch_tools_settled_outcomes :
    BatchSpec mass_channels (fun ch => ch.name) (fun o => o.name) (fun o => o.status)
      (fun o => o.error)
      (fun ch chId => ⟨ch.name, some chId, "created", none⟩)
      (fun ch e => ⟨ch.name, none, "failed", some e⟩)
    ∧ BatchSpec mass_categories (fun n => n) (fun o => o.name) (fun o => o.status)
      (fun o => o.error)
      (fun n catId => ⟨n, some catId, "created", none⟩)
      (fun n e => ⟨n, none, "failed", some e⟩)
    ∧ BatchSpec mass_voice_channels (fun ch => ch.name) (fun o => o.name) (fun o => o.status)
      (fun o => o.error)
      (fun ch vcId => ⟨ch.name, some vcId, "created", none⟩)
      (fun ch e => ⟨ch.name, none, "failed", some e⟩)
    ∧ BatchSpec mass_delete (fun cid => cid) (fun o => o.id) (fun o => o.status)
      (fun o => o.error)
      (fun cid n => ⟨cid, some n, "deleted", none⟩)
      (fun cid e => ⟨cid, none, "failed", some e⟩)
    ∧ BatchSpec mass_send_message (fun m => m.channel_id) (fun o => o.channel_id)
      (fun o => o.status) (fun o => o.error)
      (fun m msgId => ⟨m.channel_id, some msgId, "sent", none⟩)
      (fun m e => ⟨m.channel_id, none, "failed", some e⟩)
    ∧ BatchSpec mass_delete_message (fun mid => mid) (fun o => o.message_id)
      (fun o => o.status) (fun o => o.error)
      (fun mid _ => ⟨mid, "deleted", none⟩)
      (fun mid e => ⟨mid, "failed", some e⟩)
    ∧ BatchSpec mass_create_role (fun r => r.name) (fun o => o.name) (fun o => o.status)
      (fun o => o.error)
      (fun r roleId => ⟨r.name, some roleId, "created", none⟩)
      (fun r e => ⟨r.name, none, "failed", some e⟩)
    ∧ BatchSpec mass_delete_role (fun rid => rid) (fun o => o.id) (fun o => o.status)
      (fun o => o.error)
      (fun rid n => ⟨rid, some n, "deleted", none⟩)
      (fun rid e => ⟨rid, none, "failed", some e⟩)
    ∧ BatchSpec mass_ban (fun uid => uid) (fun o => o.user_id) (fun o => o.status)
      (fun o => o.error)
      (fun uid _ => ⟨uid, "banned", none⟩)
      (fun uid e => ⟨uid, "failed", some e⟩)
    ∧ (∀ now d : Nat, BatchSpec (mass_time_out now d) (fun uid => uid) (fun o => o.user_id)
      (fun o => o.status) (fun o => o.error)
      (fun uid uname => ⟨uid, some uname, "timed_out", some (now + d * 60 * 1000), none⟩)
      (fun uid e => ⟨uid, none, "failed", none, some e⟩)) := by
  refine ⟨?_, ?_, ?_, ?_, ?_, ?_, ?_, ?_, ?_, ?_⟩
  · exact batchSpec_of_shape _ _ _ _ _ _ _ _
      (fun op xs => rfl)
      (fun x b => rfl) (fun x e => rfl)
      (fun x b => rfl) (fun x e => rfl)
      (fun x b => (by decide : ("created" : String) ≠ "failed"))
      (fun x e => rfl) (fun x e => rfl)
  · exact batchSpec_of_shape _ _ _ _ _ _ _ _
      (fun op xs => rfl)
      (fun x b => rfl) (fun x e => rfl)
      (fun x b => rfl) (fun x e => rfl)
      (fun x b => (by decide : ("created" : String) ≠ "failed"))
      (fun x e => rfl) (fun x e => rfl)
  · exact batchSpec_of_shape _ _ _ _ _ _ _ _
      (fun op xs => rfl)
      (fun x b => rfl) (fun x e => rfl)
      (fun x b => rfl) (fun x e => rfl)
      (fun x b => (by decide : ("created" : String) ≠ "failed"))
      (fun x e => rfl) (fun x e => rfl)
  · exact batchSpec_of_shape _ _ _ _ _ _ _ _
      (fun op xs => rfl)
      (fun x b => rfl) (fun x e => rfl)
      (fun x b => rfl) (fun x e => rfl)
      (fun x b => (by decide : ("deleted" : String) ≠ "failed"))
      (fun x e => rfl) (fun x e => rfl)
  · exact batchSpec_of_shape _ _ _ _ _ _ _ _
      (fun op xs => rfl)
      (fun x b => rfl) (fun x e => rfl)
      (fun x b => rfl) (fun x e => rfl)
      (fun x b => (by decide : ("sent" : String) ≠ "failed"))
      (fun x e => rfl) (fun x e => rfl)
  · exact batchSpec_of_shape _ _ _ _ _ _ _ _
      (fun op xs => rfl)
      (fun x b => rfl) (fun x e => rfl)
      (fun x b => rfl) (fun x e => rfl)
      (fun x b => (by decide : ("deleted" : String) ≠ "failed"))
      (fun x e => rfl) (fun x e => rfl)
  · exact batchSpec_of_shape _ _ _ _ _ _ _ _
      (fun op xs => rfl)
      (fun x b => rfl) (fun x e => rfl)
      (fun x b => rfl) (fun x e => rfl)
      (fun x b => (by decide : ("created" : String) ≠ "failed"))
      (fun x e => rfl) (fun x e => rfl)
  · exact batchSpec_of_shape _ _ _ _ _ _ _ _
      (fun op xs => rfl)
      (fun x b => rfl) (fun x e => rfl)
      (fun x b => rfl) (fun x e => rfl)
      (fun x b => (by decide : ("deleted" : String) ≠ "failed"))
      (fun x e => rfl) (fun x e => rfl)
  · exact batchSpec_of_shape _ _ _ _ _ _ _ _
      (fun op xs => rfl)
      (fun x b => rfl) (fun x e => rfl)
      (fun x b => rfl) (fun x e => rfl)
      (fun x b => (by decide : ("banned" : String) ≠ "failed"))
      (fun x e => rfl) (fun x e => rfl)
  · intro now d
    exact batchSpec_of_shape _ _ _ _ _ _ _ _
      (fun op xs => rfl)
      (fun x b => rfl) (fun x e => rfl)
      (fun x b => rfl) (fun x e => rfl)
      (fun x b => (by decide : ("timed_out" : String) ≠ "failed"))
      (fun x e => rfl) (fun x e => rfl)

/-- Witness for C1 at a concrete batch: three channels where the second
item's remote creation is rejected. -/
theorem batch_tools_settled_outcomes_witness :
    (mass_channels create0 inputs0).length = 3
    ∧ (mass_channels create0 inputs0)[0]? = some ⟨"a", some "id-a", "created", none⟩
    ∧ (mass_channels create0 inputs0)[1]? = some ⟨"b", none, "failed", some "boom"⟩
    ∧ (mass_channels create0 inputs0)[2]? = some ⟨"c", some "id-c", "created", none⟩
    ∧ (mass_channels create0 inputs0).countP (fun o => o.status == "failed") = 1 := by
  obtain ⟨hlen, hkey, hcnt, hok, herr, happ⟩ :=
    batch_tools_settled_outcomes.1 create0 inputs0
  refine ⟨?_, ?_, ?_, ?_, ?_⟩
  · rw [hlen]; rfl
  · exact (hok 0 ⟨"a", none, none⟩ "id-a" (by rfl) (by rfl)).1
  · exact (herr 1 ⟨"b", none, none⟩ "boom" (by rfl) (by rfl)).1
  · exact (hok 2 ⟨"c", none, none⟩ "id-c" (by rfl) (by rfl)).1
  · rw [hcnt]; rfl

/-- `Collection.find` returns the first match: a successful `find?` splits
the list into a prefix of non-matches, the found element, and a suffix. -/
theorem find?_eq_some_split {α : Type} (p : α → Bool) :
    ∀ (xs : List α) (a : α), xs.find? p = some a →
      ∃ ys zs, xs = ys ++ a :: zs ∧ (∀ y ∈ ys, p y = false) ∧ p a = true := by
  intro xs
  induction xs with
  | nil => intro a h; cases h
  | cons x xs ih =>
    intro a h
    cases hp : p x with
    | true =>
      rw [List.find?_cons_of_pos _ hp] at h
      cases h
      exact ⟨[], xs, rfl, by simp, hp⟩
    | false =>
      rw [List.find?_cons_of_neg _ (by simp [hp])] at h
      obtain ⟨ys, zs, hsplit, hpre, ha⟩ := ih a h
      refine ⟨x :: ys, zs, by rw [hsplit]; rfl, ?_, ha⟩
      intro y hy
      cases hy with
      | head => exact hp
      | tail _ hy2 => exact hpre y hy2

/-- C2: token-shape dispatch in the entity resolvers. A token of 17–20
decimal digits goes to the direct-identifier path (`members.fetch(id)` for
members, cache lookup by id for roles); any other token goes to the
name-matching path, which compares case-insensitively (for members against
username, display name and global name, for roles against the role name),
returns the first match in cache order, and fails with a not-found error
when nothing matches. Case-insensitivity is stated as invariance of the
matching predicates under case changes of the token. -/
theorem resolver_id_shape_heuristic :
    ∀ (fetchById : String → Except String Member) (roster : List Member)
      (roles : List Role) (tok : String),
      (isSnowflake tok = true →
        resolveMember fetchById roster tok = fetchById tok)
      ∧ (isSnowflake tok = false →
          ((∀ m ∈ roster, memberNameMatches tok m = false) →
            resolveMember fetchById roster tok
              = .error ("User \"" ++ tok ++ "\" not found in this server"))
          ∧ (∀ m, resolveMember fetchById roster tok = .ok m →
              ∃ ys zs, roster = ys ++ m :: zs
                ∧ (∀ y ∈ ys, memberNameMatches tok y = false)
                ∧ memberNameMatches tok m = true))
      ∧ (∀ tok2, strToLower tok = strToLower tok2 →
          ∀ m, memberNameMatches tok m = memberNameMatches tok2 m)
      ∧ (isSnowflake tok = true →
          ((∀ r ∈ roles, (r.id == tok) = false) →
            resolveRole roles tok = .error ("Role " ++ tok ++ " not found"))
          ∧ (∀ r, resolveRole roles tok = .ok r → r ∈ roles ∧ r.id = tok))
      ∧ (isSnowflake tok = false →
          ((∀ r ∈ roles, roleNameMatches tok r = false) →
            resolveRole roles tok = .error ("Role \"" ++ tok ++ "\" not found"))
          ∧ (∀ r, resolveRole roles tok = .ok r →
              ∃ ys zs, roles = ys ++ r :: zs
                ∧ (∀ y ∈ ys, roleNameMatches tok y = false)
                ∧ roleNameMatches tok r = true))
      ∧ (∀ tok2, strToLower tok = strToLower tok2 →
          ∀ r, roleNameMatches tok r = roleNameMatches tok2 r) := by
  intro fetchById roster roles tok
  refine ⟨?_, ?_, ?_, ?_, ?_, ?_⟩
  · intro hsf
    simp [resolveMember, hsf]
  · intro hsf
    constructor
    · intro hnone
      have hfind : roster.find? (memberNameMatches tok) = none :=
        List.find?_eq_none.mpr (by intro m hm; simp [hnone m hm])
      simp [resolveMember, hsf, hfind]
    · intro m hok
      simp only [resolveMember, hsf, Bool.false_eq_true, if_false] at hok
      cases hfind : roster.find? (memberNameMatches tok) with
      | none => rw [hfind] at hok; cases hok
      | some m2 =>
        rw [hfind] at hok
        injection hok with hm
        subst hm
        exact find?_eq_some_split _ roster _ hfind
  · intro tok2 hlow m
    simp [memberNameMatches, hlow]
  · intro hsf
    constructor
    · intro hnone
      have hfind : roles.find? (fun r => r.id == tok) = none :=
        List.find?_eq_none.mpr (by intro r hr; simp_all)
      simp [resolveRole, hsf, hfind]
    · intro r hok
      simp only [resolveRole, hsf, if_true] at hok
      cases hfind : roles.find? (fun r => r.id == tok) with
      | none => rw [hfind] at hok; cases hok
      | some r2 =>
        rw [hfind] at hok
        injection hok with hr
        subst hr
        have hpr := List.find?_some hfind
        exact ⟨List.mem_of_find?_eq_some hfind, eq_of_beq hpr⟩
  · intro hsf
    constructor
    · intro hnone
      have hfind : roles.find? (roleNameMatches tok) = none :=
        List.find?_eq_none.mpr (by intro r hr; simp [hnone r hr])
      simp [resolveRole, hsf, hfind]
    · intro r hok
      simp only [resolveRole, hsf, Bool.false_eq_true, if_false] at hok
      cases hfind : roles.find? (roleNameMatches tok) with
      | none => rw [hfind] at hok; cases hok
      | some r2 =>
        rw [hfind] at hok
        injection hok with hr
        subst hr
        exact find?_eq_some_split _ roles _ hfind
  · intro tok2 hlow r
    simp [roleNameMatches, hlow]

/-- Witness for C2: a 17-digit all-digit token takes the direct path; an
unknown name yields the not-found error; matching is unchanged when the
token changes case. -/
theorem resolver_id_shape_heuristic_witness :
    resolveMember fetch0 roster0 "11111111111111111"
      = fetch0 "11111111111111111"
    ∧ resolveMember fetch0 roster0 "ghost"
      = .error ("User \"" ++ "ghost" ++ "\" not found in this server")
    ∧ memberNameMatches "ALICE" member0 = memberNameMatches "alice" member0
    ∧ resolveRole roles0 "moderator" = .ok ⟨"222222222222222222", "Moderator"⟩ := by
  refine ⟨?_, ?_, ?_, ?_⟩
  · exact (resolver_id_shape_heuristic fetch0 roster0 roles0 "11111111111111111").1
      (by decide)
  · exact ((resolver_id_shape_heuristic fetch0 roster0 roles0 "ghost").2.1
      (by decide)).1 (by decide)
  · exact (resolver_id_shape_heuristic fetch0 roster0 roles0 "ALICE").2.2.1
      "alice" (by decide) member0
  · rfl

/-- C3: for a guild id `X` the platform client recognizes (present in the
guild cache; platform snowflake ids are never empty, captured by the
nonemptiness hypothesis), `set_guild X` followed by `get_guild` with no
intervening `set_guild` returns `X` as the `default_guild_id`. -/
theorem set_guild_get_guild_roundtrip :
    ∀ (cache : List Guild) (fs : FileState) (X : String) (g : Guild),
      getGuild cache X = .ok g → X.isEmpty = false →
      ((get_guild cache (set_guild cache X fs).1).2).default_guild_id = some X := by
  intro cache fs X g hg hne
  have h1 : (set_guild cache X fs).1 = .wellFormed ⟨some X, (loadConfig fs).extra⟩ := by
    unfold set_guild
    rw [hg]
    rfl
  rw [h1]
  simp [get_guild, loadConfig, hne, hg]

/-- Witness for C3 at a concrete cache and an initially missing config
file. -/
theorem set_guild_get_guild_roundtrip_witness :
    ((get_guild [guild0] (set_guild [guild0] "123456789012345678" .missing).1).2).default_guild_id
      = some "123456789012345678" :=
  set_guild_get_guild_roundtrip [guild0] .missing "123456789012345678" guild0
    (by rfl) (by rfl)

/-- C4: a guild-scoped tool called with no `guild_id` argument while the
persisted config has no `default_guild_id` fails with the caller-input
error of `resolveGuildId`, with an empty remote-call trace — the handler
body (which performs the tool's remote platform calls) never runs. -/
theorem guild_scoped_missing_guild_fails_early :
    ∀ {α : Type} (fs : FileState) (cache : List Guild)
      (body : Guild → List String × Except String α),
      (loadConfig fs).default_guild_id = none →
      dispatchGuildScoped fs cache none body
        = ([], .error "No guild_id provided and no default guild set. Use set_guild first.") := by
  intro α fs cache body hnone
  simp [dispatchGuildScoped, resolveGuildId, resolveGuildDefault, hnone]

/-- Witness for C4: a missing config file and a body that would perform a
remote `channels.create` call. -/
theorem guild_scoped_missing_guild_fails_early_witness :
    dispatchGuildScoped .missing [guild0] none body0
      = ([], .error "No guild_id provided and no default guild set. Use set_guild first.") :=
  guild_scoped_missing_guild_fails_early .missing [guild0] body0 rfl

/-- C5: `loadConfig` is total and returns the empty config both for a
missing file and for a file whose content fails to parse; `saveConfig`
fully overwrites the file with exactly the given config, independently of
the previous file content (no merge, no partial update), and a subsequent
load reads back exactly what was saved. -/
theorem config_load_soft_save_overwrite :
    loadConfig .missing = emptyConfig
    ∧ loadConfig .malformed = emptyConfig
    ∧ (∀ (c : Config) (fs : FileState), saveConfig c fs = .wellFormed c)
    ∧ (∀ (c : Config) (fs fs2 : FileState), saveConfig c fs = saveConfig c fs2)
    ∧ (∀ (c : Config) (fs : FileState), loadConfig (saveConfig c fs) = c) :=
  ⟨rfl, rfl, fun _ _ => rfl, fun _ _ _ => rfl, fun _ _ => rfl⟩

/-- Counterexample to C6: with a config file holding an extra `theme`
field, the file rewritten by `set_guild` still contains that extra field —
it is not `{default_guild_id}` alone, because the handler saves the loaded
(mutated) config object rather than a fresh one. -/
theorem set_guild_extra_fields_not_dropped :
    (set_guild [guild0] "123456789012345678" fsExtra).1
      = .wellFormed ⟨some "123456789012345678", [("theme", "dark")]⟩
    ∧ (set_guild [guild0] "123456789012345678" fsExtra).1
      ≠ .wellFormed ⟨some "123456789012345678", []⟩ :=
  ⟨rfl, by decide⟩

/-- C6 as amended: the save triggered by a successful `set_guild`
preserves the unknown extra fields of the loaded config — the rewritten
file is the loaded config with only `default_guild_id` replaced. -/
theorem set_guild_preserves_extra_fields :
    ∀ (cache : List Guild) (gid : String) (fs : FileState) (g : Guild),
      getGuild cache gid = .ok g →
      (set_guild cache gid fs).1
        = .wellFormed ⟨some gid, (loadConfig fs).extra⟩ := by
  intro cache gid fs g hg
  unfold set_guild
  rw [hg]
  rfl

/-- Witness for the amended C6 at the concrete extra-field config. -/
theorem set_guild_preserves_extra_fields_witness :
    (set_guild [guild0] "123456789012345678" fsExtra).1
      = .wellFormed ⟨some "123456789012345678", (loadConfig fsExtra).extra⟩ :=
  set_guild_preserves_extra_fields [guild0] "123456789012345678" fsExtra guild0 rfl

/-- C7: a `time_out_user` call on a resolvable member returns a result
whose `until` field is call time plus `duration_minutes * 60 * 1000`
milliseconds, the same duration in milliseconds is passed to the platform
timeout call, and in particular `duration_minutes = 10` gives call time
plus 600000 ms. -/
theorem time_out_user_until_spec :
    ∀ (resolveM : String → Except String Member) (now : Nat) (user_id : String)
      (d : Nat) (reason : Option String) (m : Member),
      resolveM user_id = .ok m →
      ∃ call res, time_out_user resolveM now user_id d reason = .ok (call, res)
        ∧ res.untilTs = now + d * 60 * 1000
        ∧ call.ms = d * 60 * 1000
        ∧ (d = 10 → res.untilTs = now + 600000) := by
  intro resolveM now user_id d reason m hm
  refine ⟨⟨m.id, d * 60 * 1000, jsOrStr reason "No reason provided"⟩,
    ⟨m.id, m.user.username, d, now + d * 60 * 1000, jsOrStr reason "No reason provided"⟩,
    ?_, rfl, rfl, ?_⟩
  · unfold time_out_user
    rw [hm]
  · intro hd
    subst hd
    rfl

/-- Witness for C7: ten minutes at call time 1000 ms. -/
theorem time_out_user_until_spec_witness :
    ∃ call res, time_out_user fetch0 1000 "111111111111111111" 10 none = .ok (call, res)
      ∧ res.untilTs = 1000 + 10 * 60 * 1000
      ∧ call.ms = 10 * 60 * 1000
      ∧ (10 = 10 → res.untilTs = 1000 + 600000) :=
  time_out_user_until_spec fetch0 1000 "111111111111111111" 10 none member0 (by rfl)

/-- C8: `get_guild` and `list_guilds` are mutation-free (the config file
state they return is the one they were given, as neither handler calls
`saveConfig`) and idempotent — repeating the call on the state left by the
first call yields an identical result, for a fixed guild cache. -/
theorem get_guild_list_guilds_idempotent :
    ∀ (cache : List Guild) (fs : FileState),
      (get_guild cache fs).1 = fs
      ∧ (list_guilds cache fs).1 = fs
      ∧ (get_guild cache (get_guild cache fs).1).2 = (get_guild cache fs).2
      ∧ (list_guilds cache (list_guilds cache fs).1).2 = (list_guilds cache fs).2 :=
  fun _ _ => ⟨rfl, rfl, rfl, rfl⟩

/-- Counterexample to C9: with `limit = 0` supplied, the fetch requests
20 messages (`args.limit || 20` treats 0 as absent), not
`min(0, 100) = 0` as the claim's formula states. -/
theorem get_messages_limit_claim_false :
    (get_messages_fetchOptions (some 0) none).limit = 20
    ∧ ¬((get_messages_fetchOptions (some 0) none).limit = min 0 100) :=
  ⟨rfl, by decide⟩

/-- C9 as amended: the requested message count is 20 when `limit` is
omitted or 0 (JS-falsy), `min(limit, 100)` for any nonzero `limit`, and in
every case at most 100. -/
theorem get_messages_limit_spec :
    (∀ before, (get_messages_fetchOptions none before).limit = 20)
    ∧ (∀ before, (get_messages_fetchOptions (some 0) before).limit = 20)
    ∧ (∀ (l : Int) (before : Option String), l ≠ 0 →
        (get_messages_fetchOptions (some l) before).limit = min l 100)
    ∧ (∀ (ol : Option Int) (before : Option String),
        (get_messages_fetchOptions ol before).limit ≤ 100) := by
  refine ⟨fun _ => rfl, fun _ => rfl, ?_, ?_⟩
  · intro l before hl
    have hbeq : (l == 0) = false := beq_eq_false_iff_ne.mpr hl
    simp [get_messages_fetchOptions, jsOrInt, hbeq]
  · intro ol before
    exact min_le_right _ _

/-- Witness for the amended C9: a nonzero over-limit request is clamped
to 100. -/
theorem get_messages_limit_spec_witness :
    (150 : Int) ≠ 0
    ∧ (get_messages_fetchOptions (some 150) none).limit = min 150 100 :=
  ⟨by decide, get_messages_limit_spec.2.2.1 150 none (by decide)⟩

/-- C10: `set_guild` validates the guild id against the platform cache
before touching the file — when the id is not a guild the bot is in, it
returns the lookup error and the config file state is left unchanged. -/
theorem set_guild_invalid_guild_leaves_config :
    ∀ (cache : List Guild) (gid : String) (fs : FileState),
      (∀ g ∈ cache, ¬(g.id = gid)) →
      (set_guild cache gid fs).1 = fs
      ∧ (set_guild cache gid fs).2
          = .error ("Guild " ++ gid ++ " not found or bot is not in this server") := by
  intro cache gid fs hno
  have hfind : cache.find? (fun g => g.id == gid) = none := by
    apply List.find?_eq_none.mpr
    intro g hg
    simp [hno g hg]
  have hget : getGuild cache gid
      = .error ("Guild " ++ gid ++ " not found or bot is not in this server") := by
    unfold getGuild
    rw [hfind]
  constructor <;> (unfold set_guild; rw [hget])

/-- Witness for C10: an unknown guild id against a one-guild cache and a
config file that already holds a default. -/
theorem set_guild_invalid_guild_leaves_config_witness :
    (set_guild [guild0] "000000000000000000" fsExtra).1 = fsExtra
    ∧ (set_guild [guild0] "000000000000000000" fsExtra).2
        = .error ("Guild " ++ "000000000000000000" ++ " not found or bot is not in this server") :=
  set_guild_invalid_guild_leaves_config [guild0] "000000000000000000" fsExtra (by decide)

end DiscordMcp
